import Mathlib

/-!
Shallow embedding of the clipboard-image drivers
(src/cli/src/media/clipboard-linux.ts and clipboard-windows.ts).

External collaborators (the process runner, the file system, the output
directory provider, the filename generator, environment variables) are
modelled as an explicit environment record; each driver becomes a pure
function of that environment.  Every external command the driver actually
executes is recorded in a trace, so that statements about which backends
were probed, negotiated with, or fetched from can be proved.  Machine
effects on the single generated output path are returned as the final
`Option Bytes` at that path.
-/

namespace Clipboard

/-- A byte sequence (stdout captured with binary encoding / file contents). -/
abbrev Bytes := List Nat

/-- The tagged result type `SaveClipboardResult` from clipboard-shared:
either success with a file path or failure with an error message. -/
inductive SaveClipboardResult where
  | success (filePath : String)
  | failure (error : String)
deriving DecidableEq, Repr

/-- One external clipboard-tool invocation, as recorded in the trace.
`which*` entries are the availability probes (`which xclip` etc.);
the others are actual invocations of the backend tools. -/
inductive Cmd where
  | whichWlPaste
  | whichXclip
  | whichXsel
  | wlListTypes
  | wlFetch (mime : String)
  | xclipTargets
  | xclipFetch (mime : String)
  | xselRead
deriving DecidableEq, Repr

/-- Outcome of `fs.promises.writeFile` at the generated output path. -/
inductive WriteOutcome where
  /-- The write succeeded, the file now holds exactly the written bytes. -/
  | ok
  /-- The write threw after creating the file with these bytes in it. -/
  | failKeep (written : Bytes) (msg : String)
  /-- The write threw without creating any file. -/
  | failNone (msg : String)
deriving DecidableEq, Repr

/-- JavaScript `String.prototype.startsWith`, on char lists. -/
def charsIsPre : List Char → List Char → Bool
  | [], _ => true
  | _ :: _, [] => false
  | p :: ps, c :: cs => p == c && charsIsPre ps cs

/-- JavaScript `String.prototype.includes` (substring containment), on
char lists: the needle occurs at some position of the haystack. -/
def charsContains (needle : List Char) : List Char → Bool
  | [] => charsIsPre needle []
  | c :: cs => charsIsPre needle (c :: cs) || charsContains needle cs

/-- JavaScript `s.includes(needle)` on Lean strings. -/
def strIncludes (s needle : String) : Bool :=
  charsContains needle.data s.data

/-- JavaScript `s.startsWith(needle)` on Lean strings. -/
def strStartsWith (s needle : String) : Bool :=
  charsIsPre needle.data s.data

/-- JavaScript `s.trim()`: strip leading and trailing whitespace. -/
def jsTrim (s : String) : String :=
  String.mk (((s.data.dropWhile Char.isWhitespace).reverse.dropWhile
    Char.isWhitespace).reverse)

/-- JavaScript `s.toLowerCase()` (for the ASCII outputs that occur here). -/
def jsToLower (s : String) : String :=
  String.mk (s.data.map Char.toLower)

/-- JavaScript `s.substring(n)`: drop the first `n` characters. -/
def jsSubstringFrom (s : String) (n : Nat) : String :=
  String.mk (s.data.drop n)

/-- The fixed external environment of one Linux driver call: results of
every external command the driver could run, and the behaviour of the
file-system operations at the generated output path. -/
structure LinuxEnv where
  /-- `process.env["WAYLAND_DISPLAY"]`. -/
  waylandDisplay : Option String
  /-- whether `which wl-paste` succeeds (`hasWlPaste`). -/
  whichWlPaste : Bool
  /-- whether `which xclip` succeeds (`hasXclip`). -/
  whichXclip : Bool
  /-- whether `which xsel` succeeds (`hasXsel`). -/
  whichXsel : Bool
  /-- result of `wl-paste --list-types` (stdout, or a thrown error). -/
  wlListTypes : Except String String
  /-- result of `wl-paste --type <mime>` with binary capture. -/
  wlFetch : String → Except String Bytes
  /-- result of `xclip -selection clipboard -t TARGETS -o`. -/
  xclipTargets : Except String String
  /-- result of `xclip -selection clipboard -t <mime> -o`, binary. -/
  xclipFetch : String → Except String Bytes
  /-- result of `xsel --clipboard --output` with maxBuffer 1024. -/
  xselRead : Except String Bytes
  /-- result of `ensureClipboardDir()` (may reject). -/
  ensureClipboardDir : Except String String
  /-- `generateClipboardFilename(format)`. -/
  generateClipboardFilename : String → String
  /-- behaviour of `fs.promises.writeFile` at the output path. -/
  writeOutcome : WriteOutcome
  /-- when `some m`, `fs.promises.stat` throws with message `m`
  even though the file exists. -/
  statErr : Option String
  /-- when `some m`, `fs.promises.unlink` throws with message `m`. -/
  unlinkErr : Option String

/-- `isWayland()`: JavaScript truthiness of `WAYLAND_DISPLAY`
(set and non-empty). -/
def isWayland (env : LinuxEnv) : Bool :=
  match env.waylandDisplay with
  | some s => !s.isEmpty
  | none => false

/-- The type-negotiation if/else chain shared by the wl-paste and xclip
branches of `saveClipboardImageLinux` (lines 124-139 and 160-175):
first supported MIME type in the fixed priority png, jpeg, gif, paired
with the format name stored into `format`; `none` when none of the three
is included in the enumeration output. -/
def chooseMime (types : String) : Option (String × String) :=
  if strIncludes types "image/png" then some ("image/png", "png")
  else if strIncludes types "image/jpeg" then some ("image/jpeg", "jpeg")
  else if strIncludes types "image/gif" then some ("image/gif", "gif")
  else none

/-- The check used by `hasClipboardImageLinux` on an enumeration output:
`stdout.includes("image/png") || stdout.includes("image/jpeg") ||
stdout.includes("image/gif")`. -/
def hasImageTypes (s : String) : Bool :=
  strIncludes s "image/png" || strIncludes s "image/jpeg" ||
    strIncludes s "image/gif"

/-- Wayland branch of `saveClipboardImageLinux` (lines 119-152).
`Except.error r` is the early `return` of the no-image failure;
`Except.ok (data, format)` is fall-through with the current values of
`imageData` (`some` of an - possibly empty - buffer, or `none`) and
`format`. -/
def wlPhase (env : LinuxEnv) :
    Except SaveClipboardResult (Option Bytes × String) × List Cmd :=
  if isWayland env then
    if env.whichWlPaste then
      match env.wlListTypes with
      | .ok types =>
        match chooseMime types with
        | none =>
          (.error (.failure "No image found in clipboard."),
            [Cmd.whichWlPaste, Cmd.wlListTypes])
        | some (mime, fmt) =>
          match env.wlFetch mime with
          | .ok bytes =>
            (.ok (some bytes, fmt),
              [Cmd.whichWlPaste, Cmd.wlListTypes, Cmd.wlFetch mime])
          | .error _ =>
            (.ok (none, fmt),
              [Cmd.whichWlPaste, Cmd.wlListTypes, Cmd.wlFetch mime])
      | .error _ => (.ok (none, "png"), [Cmd.whichWlPaste, Cmd.wlListTypes])
    else (.ok (none, "png"), [Cmd.whichWlPaste])
  else (.ok (none, "png"), [])

/-- xclip branch of `saveClipboardImageLinux` (lines 155-188), entered
only when `imageData` is still null (`!imageData && (await hasXclip())`,
with short-circuit: `which xclip` runs only when `imageData` is null). -/
def xclipPhase (env : LinuxEnv) (dataIn : Option Bytes) (fmtIn : String) :
    Except SaveClipboardResult (Option Bytes × String) × List Cmd :=
  match dataIn with
  | some b => (.ok (some b, fmtIn), [])
  | none =>
    if env.whichXclip then
      match env.xclipTargets with
      | .ok targets =>
        match chooseMime targets with
        | none =>
          (.error (.failure "No image found in clipboard."),
            [Cmd.whichXclip, Cmd.xclipTargets])
        | some (mime, fmt) =>
          match env.xclipFetch mime with
          | .ok bytes =>
            (.ok (some bytes, fmt),
              [Cmd.whichXclip, Cmd.xclipTargets, Cmd.xclipFetch mime])
          | .error _ =>
            (.ok (none, fmt),
              [Cmd.whichXclip, Cmd.xclipTargets, Cmd.xclipFetch mime])
      | .error _ => (.ok (none, fmtIn), [Cmd.whichXclip, Cmd.xclipTargets])
    else (.ok (none, fmtIn), [Cmd.whichXclip])

/-- `hasWlPaste() || hasXclip() || hasXsel()` (line 193), with JavaScript
short-circuit evaluation reflected in the trace. -/
def hasAnyTool (env : LinuxEnv) : Bool × List Cmd :=
  if env.whichWlPaste then (true, [Cmd.whichWlPaste])
  else if env.whichXclip then (true, [Cmd.whichWlPaste, Cmd.whichXclip])
  else (env.whichXsel, [Cmd.whichWlPaste, Cmd.whichXclip, Cmd.whichXsel])

/-- Persistence and verification section of `saveClipboardImageLinux`
(lines 214-246): write the bytes, stat, delete a zero-byte file, and on
any thrown error attempt a best-effort cleanup unlink whose own failure
is swallowed.  Returns the tagged result and the file contents left at
the output path. -/
def persistPhase (env : LinuxEnv) (clipboardDir : String) (data : Bytes)
    (fmt : String) : SaveClipboardResult × Option Bytes :=
  let filePath := clipboardDir ++ "/" ++ env.generateClipboardFilename fmt
  match env.writeOutcome with
  | .failNone msg => (.failure msg, none)
  | .failKeep written msg =>
    (.failure msg, if env.unlinkErr.isSome then some written else none)
  | .ok =>
    match env.statErr with
    | some m =>
      (.failure m, if env.unlinkErr.isSome then some data else none)
    | none =>
      if data.length == 0 then
        match env.unlinkErr with
        | some um => (.failure um, some data)
        | none => (.failure "Failed to write image data to file.", none)
      else (.success filePath, some data)

/-- `saveClipboardImageLinux` (lines 111-247).  Returns the outer
`Except` (an `Except.error` is an uncaught rejection crossing the entry
point - only `ensureClipboardDir` can produce one, line 112), the file
contents left at the generated output path, and the trace of external
clipboard-tool commands that were executed. -/
def saveClipboardImageLinux (env : LinuxEnv) :
    Except String SaveClipboardResult × Option Bytes × List Cmd :=
  match env.ensureClipboardDir with
  | .error e => (.error e, none, [])
  | .ok clipboardDir =>
    match wlPhase env with
    | (.error r, t1) => (.ok r, none, t1)
    | (.ok (d1, f1), t1) =>
      match xclipPhase env d1 f1 with
      | (.error r, t2) => (.ok r, none, t1 ++ t2)
      | (.ok (d2, f2), t2) =>
        match d2 with
        | none =>
          let probe := hasAnyTool env
          if probe.1 then
            (.ok (.failure "No image found in clipboard."), none,
              t1 ++ t2 ++ probe.2)
          else
            (.ok (.failure
              "No clipboard tool available. Please install xclip (sudo apt install xclip) or wl-clipboard for Wayland."),
              none, t1 ++ t2 ++ probe.2)
        | some data =>
          if data.length == 0 then
            (.ok (.failure "Clipboard image is empty."), none, t1 ++ t2)
          else
            let p := persistPhase env clipboardDir data f2
            (.ok p.1, p.2, t1 ++ t2)

/-- Wayland branch of `hasClipboardImageLinux` (lines 65-74):
`some b` is an early `return b`, `none` is fall-through. -/
def wlHasPhase (env : LinuxEnv) : Option Bool × List Cmd :=
  if isWayland env then
    if env.whichWlPaste then
      match env.wlListTypes with
      | .ok s => (some (hasImageTypes s), [Cmd.whichWlPaste, Cmd.wlListTypes])
      | .error _ => (none, [Cmd.whichWlPaste, Cmd.wlListTypes])
    else (none, [Cmd.whichWlPaste])
  else (none, [])

/-- xclip branch of `hasClipboardImageLinux` (lines 77-86). -/
def xclipHasPhase (env : LinuxEnv) : Option Bool × List Cmd :=
  if env.whichXclip then
    match env.xclipTargets with
    | .ok s => (some (hasImageTypes s), [Cmd.whichXclip, Cmd.xclipTargets])
    | .error _ => (none, [Cmd.whichXclip, Cmd.xclipTargets])
  else (none, [Cmd.whichXclip])

/-- xsel branch of `hasClipboardImageLinux` (lines 89-102): a successful
read conservatively returns `false`; a thrown read falls through. -/
def xselHasPhase (env : LinuxEnv) : Option Bool × List Cmd :=
  if env.whichXsel then
    match env.xselRead with
    | .ok _ => (some false, [Cmd.whichXsel, Cmd.xselRead])
    | .error _ => (none, [Cmd.whichXsel, Cmd.xselRead])
  else (none, [Cmd.whichXsel])

/-- `hasClipboardImageLinux` (lines 63-105): the boolean answer and the
trace of executed external commands.  Total: every collaborator failure
is caught inside the function. -/
def hasClipboardImageLinux (env : LinuxEnv) : Bool × List Cmd :=
  match wlHasPhase env with
  | (some b, t1) => (b, t1)
  | (none, t1) =>
    match xclipHasPhase env with
    | (some b, t2) => (b, t1 ++ t2)
    | (none, t2) =>
      match xselHasPhase env with
      | (some b, t3) => (b, t1 ++ t2 ++ t3)
      | (none, t3) => (false, t1 ++ t2 ++ t3)

/-- The fixed external environment of one Windows driver call. -/
structure WindowsEnv where
  /-- result of `ensureClipboardDir()` (may reject). -/
  ensureClipboardDir : Except String String
  /-- `generateClipboardFilename(format)`. -/
  generateClipboardFilename : String → String
  /-- raw stdout of the `ContainsImage` PowerShell script, or a thrown
  execution error (`runPowerShell` trims the stdout). -/
  psHas : Except String String
  /-- raw stdout of the save PowerShell script, or a thrown execution
  error. -/
  psSave : Except String String
  /-- contents of the file at the generated output path after the save
  script's invocation was attempted (the script itself writes the file). -/
  psSaveFile : Option Bytes
  /-- when `some m`, `fs.promises.stat` throws with message `m`
  even though the file exists (e.g. EPERM or EBUSY from a lock). -/
  statErr : Option String
  /-- when `some m`, `fs.promises.unlink` throws with message `m`. -/
  unlinkErr : Option String

/-- `hasClipboardImageWindows` (lines 27-41): `runPowerShell` trims the
stdout, the result is compared lower-cased against `"true"`; any thrown
error yields `false`.  Total by construction. -/
def hasClipboardImageWindows (env : WindowsEnv) : Bool :=
  match env.psHas with
  | .ok s => jsToLower (jsTrim s) == "true"
  | .error _ => false

/-- `saveClipboardImageWindows` (lines 46-129).  Returns the outer
`Except` (an `Except.error` is an uncaught rejection - only
`ensureClipboardDir`, line 47, can produce one) and the file contents
left at the generated output path. -/
def saveClipboardImageWindows (env : WindowsEnv) :
    Except String SaveClipboardResult × Option Bytes :=
  match env.ensureClipboardDir with
  | .error e => (.error e, none)
  | .ok clipboardDir =>
    let filePath := clipboardDir ++ "/" ++ env.generateClipboardFilename "png"
    match env.psSave with
    | .error m =>
      -- outer catch: best-effort unlink (failure swallowed), then failure
      (.ok (.failure m),
        if env.unlinkErr.isSome then env.psSaveFile else none)
    | .ok out =>
      let result := jsTrim out
      if result = "NO_IMAGE" then
        (.ok (.failure "No image found in clipboard."), env.psSaveFile)
      else if strStartsWith result "ERROR:" then
        (.ok (.failure (jsTrim (jsSubstringFrom result 7))), env.psSaveFile)
      else
        match env.statErr with
        | some _ =>
          -- stat throws although the file may exist; the inner catch
          -- returns without attempting any cleanup
          (.ok (.failure "Image file was not created."), env.psSaveFile)
        | none =>
        match env.psSaveFile with
        | none =>
          -- stat throws, inner catch: "Image file was not created."
          (.ok (.failure "Image file was not created."), none)
        | some bytes =>
          if bytes.length == 0 then
            match env.unlinkErr with
            | some _ =>
              -- the unlink throw is caught by the inner catch
              (.ok (.failure "Image file was not created."), some bytes)
            | none =>
              (.ok (.failure "Failed to write image data to file."), none)
          else (.ok (.success filePath), some bytes)

/-! Concrete environments used for witnesses and counterexamples. -/

/-- A Linux environment with no clipboard tool installed and a working
output directory. -/
def baseLinuxEnv : LinuxEnv where
  waylandDisplay := none
  whichWlPaste := false
  whichXclip := false
  whichXsel := false
  wlListTypes := .error "not run"
  wlFetch := fun _ => .error "not run"
  xclipTargets := .error "not run"
  xclipFetch := fun _ => .error "not run"
  xselRead := .error "not run"
  ensureClipboardDir := .ok "/tmp/clipboard"
  generateClipboardFilename := fun f => "clipboard-image." ++ f
  writeOutcome := .ok
  statErr := none
  unlinkErr := none

/-- X11 session, xclip installed, PNG on the clipboard, all file-system
operations healthy. -/
def envXclipSuccess : LinuxEnv :=
  { baseLinuxEnv with
    whichXclip := true
    xclipTargets := .ok "TARGETS image/png text/plain"
    xclipFetch := fun _ => .ok [137, 80, 78, 71] }

/-- X11 session with a PNG on the clipboard whose write throws after
creating a zero-byte file, and whose cleanup unlink also throws. -/
def envCleanupFails : LinuxEnv :=
  { baseLinuxEnv with
    whichXclip := true
    xclipTargets := .ok "image/png"
    xclipFetch := fun _ => .ok [137, 80, 78, 71]
    writeOutcome := .failKeep [] "disk full"
    unlinkErr := some "EPERM: operation not permitted, unlink" }

/-- Wayland session where wl-paste lists image/png but fetches an empty
byte sequence, while xclip is installed and would succeed. -/
def envEmptyWlFetch : LinuxEnv :=
  { baseLinuxEnv with
    waylandDisplay := some "wayland-0"
    whichWlPaste := true
    wlListTypes := .ok "image/png"
    wlFetch := fun _ => .ok []
    whichXclip := true
    xclipTargets := .ok "image/png"
    xclipFetch := fun _ => .ok [137, 80, 78, 71] }

/-- A Linux environment whose directory provider rejects. -/
def envDirFails : LinuxEnv :=
  { baseLinuxEnv with ensureClipboardDir := .error "EACCES: permission denied" }

/-- Not a Wayland session, but wl-paste installed anyway; xclip installed
with a PNG on the clipboard. -/
def envNotWayland : LinuxEnv :=
  { baseLinuxEnv with
    whichWlPaste := true
    whichXclip := true
    xclipTargets := .ok "image/png"
    xclipFetch := fun _ => .ok [1, 2, 3] }

/-- A Wayland session whose type enumeration succeeds but lists no image
type, while xclip is installed and would succeed. -/
def envWlNoImageType : LinuxEnv :=
  { baseLinuxEnv with
    waylandDisplay := some "wayland-0"
    whichWlPaste := true
    wlListTypes := .ok "text/plain;charset=utf-8 STRING"
    whichXclip := true
    xclipTargets := .ok "image/png"
    xclipFetch := fun _ => .ok [1, 2, 3] }

/-- A Windows environment where the PowerShell runner itself fails
(powershell.exe not found). -/
def baseWindowsEnv : WindowsEnv where
  ensureClipboardDir := .ok "C:/Temp/clipboard"
  generateClipboardFilename := fun f => "clipboard-image." ++ f
  psHas := .error "not run"
  psSave := .error "spawn powershell.exe ENOENT"
  psSaveFile := none
  statErr := none
  unlinkErr := none

/-- Windows save succeeds: script prints SUCCESS and writes the PNG. -/
def envWinSuccess : WindowsEnv :=
  { baseWindowsEnv with
    psSave := .ok "SUCCESS\n"
    psSaveFile := some [137, 80, 78, 71] }

/-- Windows save where the script writes the PNG and prints SUCCESS, but
the subsequent stat verification throws (e.g. EPERM from a scanner lock)
even though the file exists. -/
def envWinStatFails : WindowsEnv :=
  { baseWindowsEnv with
    psSave := .ok "SUCCESS\n"
    psSaveFile := some [137, 80, 78, 71]
    statErr := some "EPERM: operation not permitted, stat" }

/-- Windows save finds no image: script prints NO_IMAGE, writes nothing. -/
def envWinNoImage : WindowsEnv :=
  { baseWindowsEnv with psSave := .ok "NO_IMAGE\n" }

/-- A Windows environment whose directory provider rejects. -/
def envWinDirFails : WindowsEnv :=
  { baseWindowsEnv with ensureClipboardDir := .error "EACCES: permission denied" }

/-! Helper lemmas characterising the phases of the Linux and Windows
save operations. -/

lemma wlPhase_error_char (env : LinuxEnv) (r : SaveClipboardResult) (t : List Cmd)
    (h : wlPhase env = (.error r, t)) :
    r = .failure "No image found in clipboard." := by
  unfold wlPhase at h
  repeat' split at h
  all_goals simp_all

lemma wlPhase_data_char (env : LinuxEnv) (bytes : Bytes) (fmt : String)
    (t : List Cmd) (h : wlPhase env = (.ok (some bytes, fmt), t)) :
    ∃ m, env.wlFetch m = .ok bytes := by
  unfold wlPhase at h
  repeat' split at h
  all_goals simp_all
  all_goals exact ⟨_, by assumption⟩

lemma xclipPhase_error_char (env : LinuxEnv) (dIn : Option Bytes) (fIn : String)
    (r : SaveClipboardResult) (t : List Cmd)
    (h : xclipPhase env dIn fIn = (.error r, t)) :
    r = .failure "No image found in clipboard." := by
  unfold xclipPhase at h
  repeat' split at h
  all_goals simp_all

lemma xclipPhase_data_char (env : LinuxEnv) (dIn : Option Bytes) (fIn : String)
    (bytes : Bytes) (fmt : String) (t : List Cmd)
    (h : xclipPhase env dIn fIn = (.ok (some bytes, fmt), t)) :
    dIn = some bytes ∨ ∃ m, env.xclipFetch m = .ok bytes := by
  unfold xclipPhase at h
  repeat' split at h
  all_goals simp_all
  all_goals exact ⟨_, by assumption⟩

lemma persistPhase_success_char (env : LinuxEnv) (d : String) (data : Bytes)
    (fmt : String) (p : String) (file : Option Bytes)
    (h : persistPhase env d data fmt = (.success p, file)) :
    file = some data ∧ data.length ≠ 0 := by
  unfold persistPhase at h
  repeat' split at h
  all_goals simp_all

lemma persistPhase_failure_char (env : LinuxEnv) (d : String) (data : Bytes)
    (fmt : String) (e : String) (file : Option Bytes)
    (hu : env.unlinkErr = none)
    (h : persistPhase env d data fmt = (.failure e, file)) :
    file = none := by
  unfold persistPhase at h
  repeat' split at h
  all_goals simp_all

lemma saveLinux_success_char (env : LinuxEnv) (p : String) (file : Option Bytes)
    (t : List Cmd)
    (h : saveClipboardImageLinux env = (.ok (.success p), file, t)) :
    ∃ data, file = some data ∧ data.length ≠ 0 ∧
      ∃ m, (env.wlFetch m = .ok data ∨ env.xclipFetch m = .ok data) := by
  unfold saveClipboardImageLinux at h
  rcases hE : env.ensureClipboardDir with e | dir <;> rw [hE] at h <;>
    try dsimp only at h
  · simp at h
  rcases hW : wlPhase env with ⟨r1 | ⟨d1, f1⟩, t1⟩ <;> rw [hW] at h <;>
    try dsimp only at h
  · have hr := wlPhase_error_char env r1 t1 hW
    simp [hr] at h
  rcases hX : xclipPhase env d1 f1 with ⟨r2 | ⟨d2, f2⟩, t2⟩ <;> rw [hX] at h <;>
    try dsimp only at h
  · have hr := xclipPhase_error_char env d1 f1 r2 t2 hX
    simp [hr] at h
  rcases d2 with _ | data <;> try dsimp only at h
  · cases hP : (hasAnyTool env).1 <;> simp [hP] at h
  · cases hz : (data.length == 0) <;> rw [hz] at h <;> try dsimp only at h
    case true => simp at h
    rcases hPP : persistPhase env dir data f2 with ⟨rp, filep⟩
    rw [hPP] at h
    simp at h
    obtain ⟨h1, h2, h3⟩ := h
    subst h2
    have hps := persistPhase_success_char env dir data f2 p filep (by rw [hPP, h1])
    refine ⟨data, hps.1, hps.2, ?_⟩
    have hd := xclipPhase_data_char env d1 f1 data f2 t2 hX
    rcases hd with hd | ⟨m, hm⟩
    · subst hd
      obtain ⟨m, hm⟩ := wlPhase_data_char env data f1 t1 hW
      exact ⟨m, Or.inl hm⟩
    · exact ⟨m, Or.inr hm⟩

lemma saveLinux_failure_file_none (env : LinuxEnv) (e : String)
    (file : Option Bytes) (t : List Cmd) (hu : env.unlinkErr = none)
    (h : saveClipboardImageLinux env = (.ok (.failure e), file, t)) :
    file = none := by
  unfold saveClipboardImageLinux at h
  rcases hE : env.ensureClipboardDir with e0 | dir <;> rw [hE] at h <;>
    try dsimp only at h
  · simp at h
  rcases hW : wlPhase env with ⟨r1 | ⟨d1, f1⟩, t1⟩ <;> rw [hW] at h <;>
    try dsimp only at h
  · simp at h
    exact h.2.1.symm
  rcases hX : xclipPhase env d1 f1 with ⟨r2 | ⟨d2, f2⟩, t2⟩ <;> rw [hX] at h <;>
    try dsimp only at h
  · simp at h
    exact h.2.1.symm
  rcases d2 with _ | data <;> try dsimp only at h
  · cases hP : (hasAnyTool env).1 <;> simp [hP] at h <;> exact h.2.1.symm
  · cases hz : (data.length == 0) <;> rw [hz] at h <;> try dsimp only at h
    case true =>
      simp at h
      exact h.2.1.symm
    rcases hPP : persistPhase env dir data f2 with ⟨rp, filep⟩
    rw [hPP] at h
    simp at h
    obtain ⟨h1, h2, h3⟩ := h
    subst h2
    exact persistPhase_failure_char env dir data f2 e filep hu (by rw [hPP, h1])

lemma saveLinux_total (env : LinuxEnv) (dir : String)
    (hE : env.ensureClipboardDir = .ok dir) :
    ∃ r, (saveClipboardImageLinux env).1 = .ok r := by
  unfold saveClipboardImageLinux
  rw [hE]
  dsimp only
  repeat' split
  all_goals exact ⟨_, rfl⟩

lemma saveWindows_success_char (env : WindowsEnv) (p : String)
    (file : Option Bytes)
    (h : saveClipboardImageWindows env = (.ok (.success p), file)) :
    ∃ bytes, file = some bytes ∧ bytes.length ≠ 0 ∧
      env.psSaveFile = some bytes := by
  unfold saveClipboardImageWindows at h
  rcases hE : env.ensureClipboardDir with e0 | dir <;> rw [hE] at h <;>
    try dsimp only at h
  · simp at h
  rcases hP : env.psSave with m | out <;> rw [hP] at h <;> try dsimp only at h
  · simp at h
  by_cases hni : jsTrim out = "NO_IMAGE"
  · rw [if_pos hni] at h
    simp at h
  · rw [if_neg hni] at h
    by_cases herr : strStartsWith (jsTrim out) "ERROR:" = true
    · rw [if_pos herr] at h
      simp at h
    · rw [if_neg herr] at h
      rcases hS : env.statErr with _ | sm
      · rw [hS] at h
        try dsimp only at h
        rcases hF : env.psSaveFile with _ | bytes <;> rw [hF] at h <;>
          try dsimp only at h
        · simp at h
        · cases hz : (bytes.length == 0) <;> rw [hz] at h <;>
            try dsimp only at h
          · simp at h
            exact ⟨bytes, h.2.symm, by simpa using hz, rfl⟩
          · rcases hu : env.unlinkErr with _ | um <;> rw [hu] at h <;>
              simp at h
      · rw [hS] at h
        try dsimp only at h
        simp at h

lemma saveWindows_failure_file_none (env : WindowsEnv) (e : String)
    (file : Option Bytes) (hu : env.unlinkErr = none)
    (hstat : env.statErr = none)
    (hs : ∀ out, env.psSave = .ok out →
      (jsTrim out = "NO_IMAGE" ∨ strStartsWith (jsTrim out) "ERROR:" = true) →
      env.psSaveFile = none)
    (h : saveClipboardImageWindows env = (.ok (.failure e), file)) :
    file = none := by
  unfold saveClipboardImageWindows at h
  rcases hE : env.ensureClipboardDir with e0 | dir <;> rw [hE] at h <;>
    try dsimp only at h
  · simp at h
  rcases hP : env.psSave with m | out <;> rw [hP] at h <;> try dsimp only at h
  · simp [hu] at h
    exact h.2.symm
  by_cases hni : jsTrim out = "NO_IMAGE"
  · simp only [hni, if_pos rfl] at h
    simp at h
    rw [← h.2, hs out hP (Or.inl hni)]
  · rw [if_neg hni] at h
    by_cases herr : strStartsWith (jsTrim out) "ERROR:" = true
    · rw [if_pos herr] at h
      simp at h
      rw [← h.2, hs out hP (Or.inr herr)]
    · rw [if_neg herr] at h
      rw [hstat] at h
      try dsimp only at h
      rcases hF : env.psSaveFile with _ | bytes <;> rw [hF] at h <;>
        try dsimp only at h
      · simp at h
        exact h.2.symm
      · cases hz : (bytes.length == 0) <;> rw [hz] at h <;> try dsimp only at h
        · simp at h
        · rw [hu] at h
          simp at h
          exact h.2.symm

lemma saveWindows_total (env : WindowsEnv) (dir : String)
    (hE : env.ensureClipboardDir = .ok dir) :
    ∃ r, (saveClipboardImageWindows env).1 = .ok r := by
  unfold saveClipboardImageWindows
  rw [hE]
  dsimp only
  repeat' split
  all_goals exact ⟨_, rfl⟩

/-! Claim theorems. -/

/-- Claim C1 (confirmed): when an enumeration-capable backend is available
and its type enumeration succeeds but lists none of image/png, image/jpeg,
image/gif, the save operation returns the failure
"No image found in clipboard." immediately; the full result equality shows
that no later backend is probed, negotiated, or fetched from (the trace
stops at the enumerating backend, and no file is created).  First conjunct:
wl-paste under Wayland (later backends xclip, xsel untouched); second
conjunct: xclip on an X11 session (later backend xsel untouched). -/
theorem C1_enumeration_noimage_short_circuit (env : LinuxEnv) (dir ts : String) :
    (env.ensureClipboardDir = .ok dir → isWayland env = true →
      env.whichWlPaste = true → env.wlListTypes = .ok ts →
      strIncludes ts "image/png" = false → strIncludes ts "image/jpeg" = false →
      strIncludes ts "image/gif" = false →
      saveClipboardImageLinux env =
        (.ok (.failure "No image found in clipboard."), none,
          [Cmd.whichWlPaste, Cmd.wlListTypes])) ∧
    (env.ensureClipboardDir = .ok dir → isWayland env = false →
      env.whichXclip = true → env.xclipTargets = .ok ts →
      strIncludes ts "image/png" = false → strIncludes ts "image/jpeg" = false →
      strIncludes ts "image/gif" = false →
      saveClipboardImageLinux env =
        (.ok (.failure "No image found in clipboard."), none,
          [Cmd.whichXclip, Cmd.xclipTargets])) := by
  constructor
  · intro hE hway hwp hlt hp hj hg
    simp [saveClipboardImageLinux, wlPhase, chooseMime, hE, hway, hwp, hlt,
      hp, hj, hg]
  · intro hE hway hxc hta hp hj hg
    simp [saveClipboardImageLinux, wlPhase, xclipPhase, chooseMime, hE, hway,
      hxc, hta, hp, hj, hg]

/-- Witness for C1: at `envWlNoImageType` (Wayland, enumeration lists only
text types, xclip installed and would succeed) the save operation stops
with the no-image failure after only the wl-paste probe and enumeration. -/
theorem C1_enumeration_noimage_short_circuit_witness :
    saveClipboardImageLinux envWlNoImageType =
      (.ok (.failure "No image found in clipboard."), none,
        [Cmd.whichWlPaste, Cmd.wlListTypes]) :=
  (C1_enumeration_noimage_short_circuit envWlNoImageType "/tmp/clipboard"
    "text/plain;charset=utf-8 STRING").1 rfl rfl rfl rfl rfl rfl rfl

/-- Counterexample to Claim C3: at `envEmptyWlFetch` the wl-paste fetch
completes successfully with zero bytes, xclip is available and (as the
second conjunct shows, by disabling wl-paste in the same environment)
would succeed with a non-empty PNG; yet the operation returns the
terminal failure "Clipboard image is empty." without ever running xclip
(the trace contains no xclip command) - it does not continue to the next
backend as the claim states. -/
theorem C3_counterexample_empty_fetch_is_terminal :
    saveClipboardImageLinux envEmptyWlFetch =
      (.ok (.failure "Clipboard image is empty."), none,
        [Cmd.whichWlPaste, Cmd.wlListTypes, Cmd.wlFetch "image/png"]) ∧
    (saveClipboardImageLinux
        { envEmptyWlFetch with whichWlPaste := false }).1 =
      .ok (.success "/tmp/clipboard/clipboard-image.png") :=
  ⟨rfl, rfl⟩

/-- Claim C3 (amended): when a backend's byte fetch completes successfully
but yields a zero-length byte sequence, the operation returns the terminal
failure "Clipboard image is empty." from that backend and does not
continue to any later backend (empty content is terminal; only a fetch
that throws is a soft failure that falls through). -/
theorem C3_amended_empty_fetch_terminal (env : LinuxEnv)
    (dir ts mime fmt : String) :
    (env.ensureClipboardDir = .ok dir → isWayland env = true →
      env.whichWlPaste = true → env.wlListTypes = .ok ts →
      chooseMime ts = some (mime, fmt) → env.wlFetch mime = .ok [] →
      saveClipboardImageLinux env =
        (.ok (.failure "Clipboard image is empty."), none,
          [Cmd.whichWlPaste, Cmd.wlListTypes, Cmd.wlFetch mime])) ∧
    (env.ensureClipboardDir = .ok dir → isWayland env = false →
      env.whichXclip = true → env.xclipTargets = .ok ts →
      chooseMime ts = some (mime, fmt) → env.xclipFetch mime = .ok [] →
      saveClipboardImageLinux env =
        (.ok (.failure "Clipboard image is empty."), none,
          [Cmd.whichXclip, Cmd.xclipTargets, Cmd.xclipFetch mime])) := by
  constructor
  · intro hE hway hwp hlt hcm hfetch
    simp [saveClipboardImageLinux, wlPhase, xclipPhase, hE, hway, hwp, hlt,
      hcm, hfetch]
  · intro hE hway hxc hta hcm hfetch
    simp [saveClipboardImageLinux, wlPhase, xclipPhase, hE, hway, hxc, hta,
      hcm, hfetch]

/-- Witness for the amended C3 at `envEmptyWlFetch`. -/
theorem C3_amended_empty_fetch_terminal_witness :
    saveClipboardImageLinux envEmptyWlFetch =
      (.ok (.failure "Clipboard image is empty."), none,
        [Cmd.whichWlPaste, Cmd.wlListTypes, Cmd.wlFetch "image/png"]) :=
  (C3_amended_empty_fetch_terminal envEmptyWlFetch "/tmp/clipboard"
    "image/png" "image/png" "png").1 rfl rfl rfl rfl rfl rfl

/-- Claim C5 (confirmed): when no backend executable is installed (every
availability probe fails) the Linux save operation returns the dedicated
no-tool failure message, which differs from the no-image message; on
Windows (single PowerShell backend) a failing PowerShell invocation
surfaces its own error message as the failure. -/
theorem C5_no_tool_available_message (envL : LinuxEnv) (envW : WindowsEnv)
    (dirL dirW m : String) :
    (envL.ensureClipboardDir = .ok dirL → envL.whichWlPaste = false →
      envL.whichXclip = false → envL.whichXsel = false →
      (saveClipboardImageLinux envL).1 = .ok (.failure
        "No clipboard tool available. Please install xclip (sudo apt install xclip) or wl-clipboard for Wayland.") ∧
      "No clipboard tool available. Please install xclip (sudo apt install xclip) or wl-clipboard for Wayland." ≠
        "No image found in clipboard.") ∧
    (envW.ensureClipboardDir = .ok dirW → envW.psSave = .error m →
      (saveClipboardImageWindows envW).1 = .ok (.failure m)) := by
  constructor
  · intro hE hwp hxc hxs
    refine ⟨?_, by decide⟩
    cases hway : isWayland envL <;>
      simp [saveClipboardImageLinux, wlPhase, xclipPhase, hasAnyTool, hE,
        hway, hwp, hxc, hxs]
  · intro hE hP
    simp [saveClipboardImageWindows, hE, hP]

/-- Witness for C5: no tool installed on Linux (`baseLinuxEnv`), and on
Windows powershell.exe cannot be spawned (`baseWindowsEnv`). -/
theorem C5_no_tool_available_message_witness :
    (saveClipboardImageLinux baseLinuxEnv).1 = .ok (.failure
      "No clipboard tool available. Please install xclip (sudo apt install xclip) or wl-clipboard for Wayland.") ∧
    (saveClipboardImageWindows baseWindowsEnv).1 =
      .ok (.failure "spawn powershell.exe ENOENT") :=
  ⟨((C5_no_tool_available_message baseLinuxEnv baseWindowsEnv "/tmp/clipboard"
      "C:/Temp/clipboard" "spawn powershell.exe ENOENT").1
        rfl rfl rfl rfl).1,
   (C5_no_tool_available_message baseLinuxEnv baseWindowsEnv "/tmp/clipboard"
      "C:/Temp/clipboard" "spawn powershell.exe ENOENT").2 rfl rfl⟩

/-- Claim C7 (confirmed): the type-negotiation step used by both
enumeration-capable backends of `saveClipboardImageLinux` picks the first
supported format in the fixed priority order png, jpeg, gif: if image/png
is listed the chosen pair is png; otherwise jpeg if listed; otherwise gif
if listed. -/
theorem C7_format_priority (ts : String) :
    (strIncludes ts "image/png" = true →
      chooseMime ts = some ("image/png", "png")) ∧
    (strIncludes ts "image/png" = false → strIncludes ts "image/jpeg" = true →
      chooseMime ts = some ("image/jpeg", "jpeg")) ∧
    (strIncludes ts "image/png" = false → strIncludes ts "image/jpeg" = false →
      strIncludes ts "image/gif" = true →
      chooseMime ts = some ("image/gif", "gif")) := by
  refine ⟨fun hp => ?_, fun hp hj => ?_, fun hp hj hg => ?_⟩ <;>
    simp [chooseMime, hp]
  · simp [hj]
  · simp [hj, hg]

/-- Witness for C7: an enumeration listing jpeg and gif but not png
negotiates jpeg. -/
theorem C7_format_priority_witness :
    chooseMime "image/gif image/jpeg TARGETS" = some ("image/jpeg", "jpeg") :=
  (C7_format_priority "image/gif image/jpeg TARGETS").2.1 rfl rfl

/-! Trace lemmas used for the Wayland-gating claim. -/

lemma xclipHasPhase_trace (env : LinuxEnv) (c : Cmd)
    (hc : c ∈ (xclipHasPhase env).2) :
    c = Cmd.whichXclip ∨ c = Cmd.xclipTargets := by
  unfold xclipHasPhase at hc
  repeat' split at hc
  all_goals simp_all

lemma xselHasPhase_trace (env : LinuxEnv) (c : Cmd)
    (hc : c ∈ (xselHasPhase env).2) :
    c = Cmd.whichXsel ∨ c = Cmd.xselRead := by
  unfold xselHasPhase at hc
  repeat' split at hc
  all_goals simp_all

lemma xclipPhase_trace (env : LinuxEnv) (dIn : Option Bytes) (fIn : String)
    (c : Cmd) (hc : c ∈ (xclipPhase env dIn fIn).2) :
    c = Cmd.whichXclip ∨ c = Cmd.xclipTargets ∨ ∃ mm, c = Cmd.xclipFetch mm := by
  unfold xclipPhase at hc
  repeat' split at hc
  all_goals simp_all
  all_goals first
  | (rcases hc with hc | hc | hc <;> simp [hc])
  | (rcases hc with hc | hc <;> simp [hc])

lemma hasAnyTool_trace (env : LinuxEnv) (c : Cmd)
    (hc : c ∈ (hasAnyTool env).2) :
    c = Cmd.whichWlPaste ∨ c = Cmd.whichXclip ∨ c = Cmd.whichXsel := by
  unfold hasAnyTool at hc
  repeat' split at hc
  all_goals simp_all
  all_goals tauto

lemma wlPhase_not_wayland (env : LinuxEnv) (hway : isWayland env = false) :
    wlPhase env = (.ok (none, "png"), []) := by
  simp [wlPhase, hway]

lemma wlHasPhase_not_wayland (env : LinuxEnv) (hway : isWayland env = false) :
    wlHasPhase env = (none, []) := by
  simp [wlHasPhase, hway]

lemma xclipHasPhase_cons (env : LinuxEnv) :
    ∃ rest, (xclipHasPhase env).2 = Cmd.whichXclip :: rest := by
  unfold xclipHasPhase
  repeat' split
  all_goals exact ⟨_, rfl⟩

lemma xclipPhase_cons (env : LinuxEnv) (f : String) :
    ∃ rest, (xclipPhase env none f).2 = Cmd.whichXclip :: rest := by
  unfold xclipPhase
  repeat' split
  all_goals first | exact ⟨_, rfl⟩ | simp_all

lemma hasLinux_trace_mem (env : LinuxEnv) (c : Cmd)
    (hway : isWayland env = false) (hc : c ∈ (hasClipboardImageLinux env).2) :
    c = Cmd.whichXclip ∨ c = Cmd.xclipTargets ∨ c = Cmd.whichXsel ∨
      c = Cmd.xselRead := by
  unfold hasClipboardImageLinux at hc
  rw [wlHasPhase_not_wayland env hway] at hc
  dsimp only at hc
  rcases h2 : xclipHasPhase env with ⟨ob, t2⟩
  rw [h2] at hc
  rcases ob with _ | b <;> dsimp only at hc
  · rcases h3 : xselHasPhase env with ⟨ob3, t3⟩
    rw [h3] at hc
    rcases ob3 with _ | b3 <;> dsimp only at hc <;> simp at hc <;>
      rcases hc with hc | hc
    · rcases xclipHasPhase_trace env c (by rw [h2]; exact hc) with h | h <;>
        simp [h]
    · rcases xselHasPhase_trace env c (by rw [h3]; exact hc) with h | h <;>
        simp [h]
    · rcases xclipHasPhase_trace env c (by rw [h2]; exact hc) with h | h <;>
        simp [h]
    · rcases xselHasPhase_trace env c (by rw [h3]; exact hc) with h | h <;>
        simp [h]
  · simp at hc
    rcases xclipHasPhase_trace env c (by rw [h2]; exact hc) with h | h <;>
      simp [h]

lemma saveLinux_trace_mem (env : LinuxEnv) (c : Cmd)
    (hway : isWayland env = false)
    (hc : c ∈ (saveClipboardImageLinux env).2.2) :
    c = Cmd.whichXclip ∨ c = Cmd.xclipTargets ∨
      (∃ mm, c = Cmd.xclipFetch mm) ∨ c = Cmd.whichWlPaste ∨
      c = Cmd.whichXsel := by
  unfold saveClipboardImageLinux at hc
  rcases hE : env.ensureClipboardDir with e | dir <;> rw [hE] at hc <;>
    try dsimp only at hc
  · simp at hc
  rw [wlPhase_not_wayland env hway] at hc
  dsimp only at hc
  rcases h2 : xclipPhase env none "png" with ⟨r2, t2⟩
  rw [h2] at hc
  rcases r2 with r | ⟨d2, f2⟩ <;> dsimp only at hc
  · simp at hc
    rcases xclipPhase_trace env none "png" c (by rw [h2]; exact hc) with
      h | h | h <;> simp [h]
  · rcases d2 with _ | data <;> dsimp only at hc
    · cases hP : (hasAnyTool env).1 <;> rw [hP] at hc <;> simp at hc <;>
        rcases hc with hc | hc
      · rcases xclipPhase_trace env none "png" c (by rw [h2]; exact hc) with
          h | h | h <;> simp [h]
      · rcases hasAnyTool_trace env c hc with h | h | h <;> simp [h]
      · rcases xclipPhase_trace env none "png" c (by rw [h2]; exact hc) with
          h | h | h <;> simp [h]
      · rcases hasAnyTool_trace env c hc with h | h | h <;> simp [h]
    · cases hz : (data.length == 0) <;> rw [hz] at hc <;> simp at hc <;>
        rcases xclipPhase_trace env none "png" c (by rw [h2]; exact hc) with
          h | h | h <;> simp [h]

lemma hasLinux_head (env : LinuxEnv) (hway : isWayland env = false) :
    (hasClipboardImageLinux env).2.head? = some Cmd.whichXclip := by
  obtain ⟨rest, hr⟩ := xclipHasPhase_cons env
  unfold hasClipboardImageLinux
  rw [wlHasPhase_not_wayland env hway]
  dsimp only
  rcases h2 : xclipHasPhase env with ⟨ob, t2⟩
  have ht2 : t2 = Cmd.whichXclip :: rest := by rw [h2] at hr; exact hr
  rcases ob with _ | b <;> dsimp only
  · rcases h3 : xselHasPhase env with ⟨ob3, t3⟩
    rcases ob3 with _ | b3 <;> dsimp only <;> simp [ht2]
  · simp [ht2]

lemma saveLinux_head (env : LinuxEnv) (dir : String)
    (hway : isWayland env = false)
    (hE : env.ensureClipboardDir = .ok dir) :
    (saveClipboardImageLinux env).2.2.head? = some Cmd.whichXclip := by
  obtain ⟨rest, hr⟩ := xclipPhase_cons env "png"
  unfold saveClipboardImageLinux
  rw [hE, wlPhase_not_wayland env hway]
  dsimp only
  rcases h2 : xclipPhase env none "png" with ⟨r2, t2⟩
  have ht2 : t2 = Cmd.whichXclip :: rest := by rw [h2] at hr; exact hr
  rcases r2 with r | ⟨d2, f2⟩ <;> dsimp only
  · simp [ht2]
  · rcases d2 with _ | data <;> dsimp only
    · cases hP : (hasAnyTool env).1 <;> simp [hP, ht2]
    · cases hz : (data.length == 0) <;> simp [hz, ht2]

/-- Counterexample to Claim C2, on both platforms.  Linux, at
`envCleanupFails`: the write throws after creating a zero-byte file and
the best-effort cleanup unlink also throws (the code swallows that
secondary error); the save operation returns a Failure, yet the
zero-byte file is still on disk at the generated output path -
contradicting "a zero-byte file is never left behind".  Windows, at
`envWinStatFails`: the PowerShell script writes a non-empty PNG and
prints SUCCESS, but the stat verification throws (EPERM) although the
file exists; the inner catch returns the Failure "Image file was not
created." without attempting any deletion, and the non-empty file
remains on disk. -/
theorem C2_counterexample_zero_byte_file_left :
    (saveClipboardImageLinux envCleanupFails).1 = .ok (.failure "disk full") ∧
    (saveClipboardImageLinux envCleanupFails).2.1 = some [] ∧
    (saveClipboardImageWindows envWinStatFails).1 =
      .ok (.failure "Image file was not created.") ∧
    (saveClipboardImageWindows envWinStatFails).2 = some [137, 80, 78, 71] :=
  ⟨rfl, rfl, rfl, rfl⟩

/-- Claim C2 (amended): on both platforms, Success always implies the
file at the generated output path holds a non-empty byte sequence; and
Failure implies no file remains at that path, provided every cleanup
deletion succeeds (`unlinkErr = none`) and, on Windows, additionally
provided the stat verification does not itself throw while the file
exists (`statErr = none` - that inner catch path, lines 92-111, returns
"Image file was not created." without attempting any deletion) and the
PowerShell save script leaves no file behind when it reports NO_IMAGE or
ERROR (the code never deletes the file on those two report paths). -/
theorem C2_amended_no_file_left_given_cleanup (envL : LinuxEnv)
    (envW : WindowsEnv) :
    (∀ p file t, saveClipboardImageLinux envL = (.ok (.success p), file, t) →
      ∃ b, file = some b ∧ b.length ≠ 0) ∧
    (envL.unlinkErr = none →
      ∀ e file t, saveClipboardImageLinux envL = (.ok (.failure e), file, t) →
        file = none) ∧
    (∀ p file, saveClipboardImageWindows envW = (.ok (.success p), file) →
      ∃ b, file = some b ∧ b.length ≠ 0) ∧
    (envW.unlinkErr = none → envW.statErr = none →
      (∀ out, envW.psSave = .ok out →
        (jsTrim out = "NO_IMAGE" ∨ strStartsWith (jsTrim out) "ERROR:" = true) →
        envW.psSaveFile = none) →
      ∀ e file, saveClipboardImageWindows envW = (.ok (.failure e), file) →
        file = none) := by
  refine ⟨fun p file t h => ?_,
    fun hu e file t h => saveLinux_failure_file_none envL e file t hu h,
    fun p file h => ?_,
    fun hu hstat hs e file h =>
      saveWindows_failure_file_none envW e file hu hstat hs h⟩
  · obtain ⟨d, h1, h2, h3⟩ := saveLinux_success_char envL p file t h
    exact ⟨d, h1, h2⟩
  · obtain ⟨b, h1, h2, h3⟩ := saveWindows_success_char envW p file h
    exact ⟨b, h1, h2⟩

/-- Witness for the amended C2, exercising all four conjuncts: a Linux
success, a Linux failure with working cleanup, a Windows success, and a
Windows NO_IMAGE failure with no file written. -/
theorem C2_amended_no_file_left_given_cleanup_witness :
    (∃ b, (saveClipboardImageLinux envXclipSuccess).2.1 = some b ∧
      b.length ≠ 0) ∧
    (saveClipboardImageLinux baseLinuxEnv).2.1 = none ∧
    (∃ b, (saveClipboardImageWindows envWinSuccess).2 = some b ∧
      b.length ≠ 0) ∧
    (saveClipboardImageWindows envWinNoImage).2 = none :=
  ⟨(C2_amended_no_file_left_given_cleanup envXclipSuccess envWinSuccess).1
      "/tmp/clipboard/clipboard-image.png"
      ((saveClipboardImageLinux envXclipSuccess).2.1)
      ((saveClipboardImageLinux envXclipSuccess).2.2) rfl,
   (C2_amended_no_file_left_given_cleanup baseLinuxEnv envWinSuccess).2.1 rfl
      "No clipboard tool available. Please install xclip (sudo apt install xclip) or wl-clipboard for Wayland."
      ((saveClipboardImageLinux baseLinuxEnv).2.1)
      ((saveClipboardImageLinux baseLinuxEnv).2.2) rfl,
   (C2_amended_no_file_left_given_cleanup envXclipSuccess envWinSuccess).2.2.1
      "C:/Temp/clipboard/clipboard-image.png"
      ((saveClipboardImageWindows envWinSuccess).2) rfl,
   (C2_amended_no_file_left_given_cleanup envXclipSuccess envWinNoImage).2.2.2
      rfl rfl (fun _ _ _ => rfl) "No image found in clipboard."
      ((saveClipboardImageWindows envWinNoImage).2) rfl⟩

/-- Counterexample to Claim C4: at `envDirFails` / `envWinDirFails` the
directory provider `ensureClipboardDir` rejects; it is awaited outside
any try/catch (clipboard-linux.ts line 112, clipboard-windows.ts line
47), so the save entry points propagate the rejection to the caller
instead of returning a tagged result. -/
theorem C4_counterexample_dir_rejection_propagates :
    (saveClipboardImageLinux envDirFails).1 = .error "EACCES: permission denied" ∧
    (saveClipboardImageWindows envWinDirFails).1 =
      .error "EACCES: permission denied" :=
  ⟨rfl, rfl⟩

/-- Claim C4 (amended): the detection entry points never propagate a
fault (they are total boolean functions for every environment, all
collaborator failures being caught internally), and the save entry
points surface every process-runner and file-system failure as a tagged
result whenever directory creation succeeds; a rejection of
`ensureClipboardDir` itself, however, propagates out of the save entry
points. -/
theorem C4_amended_tagged_results (envL : LinuxEnv) (envW : WindowsEnv)
    (dirL dirW : String) :
    (envL.ensureClipboardDir = .ok dirL →
      ∃ r, (saveClipboardImageLinux envL).1 = .ok r) ∧
    (envW.ensureClipboardDir = .ok dirW →
      ∃ r, (saveClipboardImageWindows envW).1 = .ok r) ∧
    (∃ b t, hasClipboardImageLinux envL = (b, t)) ∧
    (∃ b, hasClipboardImageWindows envW = b) :=
  ⟨fun hE => saveLinux_total envL dirL hE,
   fun hE => saveWindows_total envW dirW hE,
   ⟨_, _, rfl⟩, ⟨_, rfl⟩⟩

/-- Witness for the amended C4 with a working directory provider on both
platforms. -/
theorem C4_amended_tagged_results_witness :
    (∃ r, (saveClipboardImageLinux baseLinuxEnv).1 = .ok r) ∧
    (∃ r, (saveClipboardImageWindows baseWindowsEnv).1 = .ok r) :=
  ⟨(C4_amended_tagged_results baseLinuxEnv baseWindowsEnv "/tmp/clipboard"
      "C:/Temp/clipboard").1 rfl,
   (C4_amended_tagged_results baseLinuxEnv baseWindowsEnv "/tmp/clipboard"
      "C:/Temp/clipboard").2.1 rfl⟩

/-- Claim C6 (confirmed): every successful retrieval leaves at the
returned path exactly the byte sequence produced by the winning
backend's fetch, unchanged and non-empty.  On Linux the file contents
are literally the bytes some `wl-paste --type` or `xclip -t <mime> -o`
invocation returned; on Windows the file holds exactly the non-empty
bytes the PowerShell script wrote. -/
theorem C6_roundtrip_bytes (envL : LinuxEnv) (envW : WindowsEnv) :
    (∀ p file t, saveClipboardImageLinux envL = (.ok (.success p), file, t) →
      ∃ data, file = some data ∧ data.length ≠ 0 ∧
        ∃ m, (envL.wlFetch m = .ok data ∨ envL.xclipFetch m = .ok data)) ∧
    (∀ p file, saveClipboardImageWindows envW = (.ok (.success p), file) →
      ∃ bytes, file = some bytes ∧ bytes.length ≠ 0 ∧
        envW.psSaveFile = some bytes) :=
  ⟨fun p file t h => saveLinux_success_char envL p file t h,
   fun p file h => saveWindows_success_char envW p file h⟩

/-- Witness for C6 at a successful xclip retrieval of a PNG and a
successful Windows retrieval. -/
theorem C6_roundtrip_bytes_witness :
    (∃ data, (saveClipboardImageLinux envXclipSuccess).2.1 = some data ∧
      data.length ≠ 0 ∧
      ∃ m, (envXclipSuccess.wlFetch m = .ok data ∨
        envXclipSuccess.xclipFetch m = .ok data)) ∧
    (∃ bytes, (saveClipboardImageWindows envWinSuccess).2 = some bytes ∧
      bytes.length ≠ 0 ∧ envWinSuccess.psSaveFile = some bytes) :=
  ⟨(C6_roundtrip_bytes envXclipSuccess envWinSuccess).1
      "/tmp/clipboard/clipboard-image.png"
      ((saveClipboardImageLinux envXclipSuccess).2.1)
      ((saveClipboardImageLinux envXclipSuccess).2.2) rfl,
   (C6_roundtrip_bytes envXclipSuccess envWinSuccess).2
      "C:/Temp/clipboard/clipboard-image.png"
      ((saveClipboardImageWindows envWinSuccess).2) rfl⟩

/-- Claim C8 (confirmed): the detection operations hold no mutable state
and query the environment afresh on every call, so under one fixed
external environment (same installed tools, same clipboard contents,
same environment variables, same external-command results) two
consecutive invocations return the same boolean - in the embedding both
are pure functions of the environment, and the two calls coincide
definitionally. -/
theorem C8_detection_idempotent (envL : LinuxEnv) (envW : WindowsEnv) :
    hasClipboardImageLinux envL = hasClipboardImageLinux envL ∧
    hasClipboardImageWindows envW = hasClipboardImageWindows envW :=
  ⟨rfl, rfl⟩

/-- Claim C9 (confirmed): when WAYLAND_DISPLAY is unset or empty, neither
the detection nor the save operation ever invokes wl-paste - no
`wl-paste --list-types` and no `wl-paste --type` command appears in
either trace, even if wl-paste is installed - and the chain starts at
xclip: the first executed command of the detection trace, and of the
save trace whenever the directory provider succeeds, is the `which
xclip` probe. -/
theorem C9_no_wlpaste_without_wayland (env : LinuxEnv) (m : String)
    (h : env.waylandDisplay = none ∨ env.waylandDisplay = some "") :
    (Cmd.wlListTypes ∉ (hasClipboardImageLinux env).2 ∧
     Cmd.wlFetch m ∉ (hasClipboardImageLinux env).2 ∧
     Cmd.wlListTypes ∉ (saveClipboardImageLinux env).2.2 ∧
     Cmd.wlFetch m ∉ (saveClipboardImageLinux env).2.2) ∧
    (hasClipboardImageLinux env).2.head? = some Cmd.whichXclip ∧
    (∀ dir, env.ensureClipboardDir = .ok dir →
      (saveClipboardImageLinux env).2.2.head? = some Cmd.whichXclip) := by
  have hway : isWayland env = false := by
    rcases h with h | h
    · simp [isWayland, h]
    · simp [isWayland, h]
      rfl
  refine ⟨⟨fun hc => ?_, fun hc => ?_, fun hc => ?_, fun hc => ?_⟩,
    hasLinux_head env hway, fun dir hE => saveLinux_head env dir hway hE⟩
  · rcases hasLinux_trace_mem env _ hway hc with h | h | h | h <;> simp at h
  · rcases hasLinux_trace_mem env _ hway hc with h | h | h | h <;> simp at h
  · rcases saveLinux_trace_mem env _ hway hc with h | h | ⟨mm, h⟩ | h | h <;>
      simp at h
  · rcases saveLinux_trace_mem env _ hway hc with h | h | ⟨mm, h⟩ | h | h <;>
      simp at h

/-- Witness for C9 at `envNotWayland` (wl-paste installed but
WAYLAND_DISPLAY unset; xclip succeeds). -/
theorem C9_no_wlpaste_without_wayland_witness :
    Cmd.wlListTypes ∉ (hasClipboardImageLinux envNotWayland).2 ∧
    Cmd.wlFetch "image/png" ∉ (saveClipboardImageLinux envNotWayland).2.2 ∧
    (hasClipboardImageLinux envNotWayland).2.head? = some Cmd.whichXclip ∧
    (saveClipboardImageLinux envNotWayland).2.2.head? = some Cmd.whichXclip :=
  ⟨(C9_no_wlpaste_without_wayland envNotWayland "image/png" (Or.inl rfl)).1.1,
   (C9_no_wlpaste_without_wayland envNotWayland "image/png" (Or.inl rfl)).1.2.2.2,
   (C9_no_wlpaste_without_wayland envNotWayland "image/png" (Or.inl rfl)).2.1,
   (C9_no_wlpaste_without_wayland envNotWayland "image/png" (Or.inl rfl)).2.2
     "/tmp/clipboard" rfl⟩

/-- Claim C10 (confirmed): `hasClipboardImageWindows` returns true
exactly when the PowerShell invocation succeeds and its trimmed stdout,
lower-cased, equals "true"; on any other output, and on any execution
error, it returns false - and it is a total function of the environment,
so no fault ever escapes it. -/
theorem C10_windows_detection_iff (env : WindowsEnv) :
    hasClipboardImageWindows env = true ↔
      ∃ s, env.psHas = .ok s ∧ jsToLower (jsTrim s) = "true" := by
  unfold hasClipboardImageWindows
  rcases hP : env.psHas with m | s <;> simp [hP]

end Clipboard
